import Mathlib

set_option maxHeartbeats 2000000
set_option maxRecDepth 4000

/-
Verification of the echem-fairifier core against its specification.

The Python sources are shallowly embedded:
  * Python/JSON values become the inductive type `Val` (numbers are `Int`/`ℚ`,
    strings are `String`, dicts are association lists in insertion order).
  * Python dict/attribute access, truthiness and the arithmetic/comparison
    operators that can raise `TypeError` are modelled explicitly; fallible
    code returns `Except String α`, where the error string names the Python
    exception class.
  * The mutable object graph needed for `enrich_metadata_with_emmo`
    (dict aliasing after a shallow `.copy()`) is modelled with an explicit
    heap of dictionaries addressed by `Nat`.
-/

/-- Python-style JSON-like value (src/src/echem_fairifier: metadata records,
technique parameters and table cells are built from these). -/
inductive Val where
  | none
  | bool (b : Bool)
  | int (n : Int)
  | num (q : ℚ)
  | str (s : String)
  | list (xs : List Val)
  | dict (entries : List (String × Val))
deriving Repr

/-- Python truthiness (`bool(v)`): `None`, `False`, `0`, `0.0`, `""`, `[]`
and `{}` are falsy, everything else truthy. -/
def truthy : Val → Bool
  | Val.none => false
  | Val.bool b => b
  | Val.int n => n != 0
  | Val.num q => q != 0
  | Val.str s => !s.isEmpty
  | Val.list xs => !xs.isEmpty
  | Val.dict es => !es.isEmpty

/-- A Python dict, in insertion order. -/
def Dict : Type := List (String × Val)

/-- First-match association-list lookup; Python `d[k]` presence (dict keys
are unique in Python, so first match is the match). -/
def dget : List (String × Val) → String → Option Val
  | [], _ => Option.none
  | (k, v) :: es, key => if k = key then some v else dget es key

/-- Python `d.get(key, default)` on a dict known to be a dict. -/
def dgetD (d : List (String × Val)) (key : String) (dflt : Val) : Val :=
  (dget d key).getD dflt

/-- Python `v.get(key, default)` on an arbitrary value: raises
`AttributeError` when `v` is not a dict. -/
def Val.attrGet : Val → String → Val → Except String Val
  | Val.dict es, key, dflt => Except.ok (dgetD es key dflt)
  | _, _, _ => Except.error "AttributeError"

/-- Python `v == "s"` for a string literal `s`: true exactly when `v` is that
string (values of other types never equal a string). -/
def Val.isStrEq : Val → String → Bool
  | Val.str t, s => t == s
  | _, _ => false

/-- Indicator used for the Python pattern `score += 1` under a condition. -/
def bnat (b : Bool) : Nat := if b then 1 else 0

/-- ASCII lowercasing of one character, as Python `str.lower` acts on the
ASCII strings appearing in this code base. -/
def lowerChar (c : Char) : Char :=
  if 65 ≤ c.toNat ∧ c.toNat ≤ 90 then Char.ofNat (c.toNat + 32) else c

/-- ASCII uppercasing of one character (Python `str.upper` on ASCII). -/
def upperChar (c : Char) : Char :=
  if 97 ≤ c.toNat ∧ c.toNat ≤ 122 then Char.ofNat (c.toNat - 32) else c

/-- Python `s.lower()` (ASCII fragment; every string this repository
lowercases is ASCII). -/
def pyLower (s : String) : String := String.mk (s.data.map lowerChar)

/-- Python `s.upper()` (ASCII fragment). -/
def pyUpper (s : String) : String := String.mk (s.data.map upperChar)

/-- Python `s.replace(a, b)` for single-character `a`, `b` (the only form
used: `replace(" ", "_")`). -/
def pyReplaceChar (s : String) (a b : Char) : String :=
  String.mk (s.data.map (fun c => if c = a then b else c))

/-- Substring test on character lists: some suffix of the haystack starts
with the needle. -/
def infixOf (needle : List Char) : List Char → Bool
  | [] => needle.isEmpty
  | c :: rest => needle.isPrefixOf (c :: rest) || infixOf needle rest

/-- Python `a in b` for strings: substring containment. -/
def pyInStr (needle haystack : String) : Bool :=
  infixOf needle.data haystack.data

/-- One parameter of a technique
(src/src/echem_fairifier/config/techniques.py, `TechniqueParameter`). -/
structure TechniqueParameter where
  name : String
  default_value : Val
  description : String
  unit : String := ""
  parameter_type : String := "number"
  min_value : Option ℚ := Option.none
  max_value : Option ℚ := Option.none
deriving Repr

/-- Generic first-match lookup in a literal table. -/
def plookup {α : Type} : List (String × α) → String → Option α
  | [], _ => Option.none
  | (k, v) :: es, key => if k = key then some v else plookup es key

/-- The static technique registry
(`ElectrochemicalTechniques.TECHNIQUE_PARAMETERS`). -/
def TECHNIQUE_PARAMETERS : List (String × List (String × TechniqueParameter)) :=
  [("CV",
    [("scan_rate",
      { name := "scan_rate", default_value := Val.num (1/10),
        description := "Rate at which potential is swept", unit := "V/s",
        min_value := some (1/1000), max_value := some 10 }),
     ("start_potential",
      { name := "start_potential", default_value := Val.num (-(2/10)),
        description := "Initial potential for the sweep", unit := "V",
        min_value := some (-5), max_value := some 5 }),
     ("end_potential",
      { name := "end_potential", default_value := Val.num (6/10),
        description := "Final potential for the sweep", unit := "V",
        min_value := some (-5), max_value := some 5 }),
     ("step_size",
      { name := "step_size", default_value := Val.num (2/1000),
        description := "Potential step increment", unit := "V",
        min_value := some (1/10000), max_value := some (1/10) }),
     ("cycles",
      { name := "cycles", default_value := Val.int 1,
        description := "Number of CV cycles", unit := "",
        parameter_type := "number",
        min_value := some 1, max_value := some 100 })]),
   ("DPV",
    [("pulse_amplitude",
      { name := "pulse_amplitude", default_value := Val.num (5/100),
        description := "Amplitude of the differential pulse", unit := "V",
        min_value := some (1/1000), max_value := some (5/10) }),
     ("pulse_width",
      { name := "pulse_width", default_value := Val.num (5/100),
        description := "Width of each pulse", unit := "s",
        min_value := some (1/1000), max_value := some 1 }),
     ("step_potential",
      { name := "step_potential", default_value := Val.num (5/1000),
        description := "Potential step between pulses", unit := "V",
        min_value := some (1/1000), max_value := some (1/10) }),
     ("scan_rate",
      { name := "scan_rate", default_value := Val.num (1/100),
        description := "Effective scan rate", unit := "V/s",
        min_value := some (1/1000), max_value := some 1 })]),
   ("SWV",
    [("frequency",
      { name := "frequency", default_value := Val.int 25,
        description := "Square wave frequency", unit := "Hz",
        min_value := some 1, max_value := some 1000 }),
     ("amplitude",
      { name := "amplitude", default_value := Val.num (25/1000),
        description := "Square wave amplitude", unit := "V",
        min_value := some (1/1000), max_value := some (5/10) }),
     ("step_height",
      { name := "step_height", default_value := Val.num (4/1000),
        description := "Potential step height", unit := "V",
        min_value := some (1/1000), max_value := some (1/10) })]),
   ("EIS",
    [("frequency_range",
      { name := "frequency_range",
        default_value := Val.list [Val.int 100000, Val.num (1/100)],
        description := "Frequency range [high, low]", unit := "Hz",
        parameter_type := "list" }),
     ("ac_amplitude",
      { name := "ac_amplitude", default_value := Val.num (1/100),
        description := "AC perturbation amplitude", unit := "V",
        min_value := some (1/1000), max_value := some (1/10) }),
     ("bias_potential",
      { name := "bias_potential", default_value := Val.num 0,
        description := "DC bias potential", unit := "V",
        min_value := some (-5), max_value := some 5 }),
     ("equilibration_time",
      { name := "equilibration_time", default_value := Val.int 10,
        description := "Pre-equilibration time", unit := "s",
        min_value := some 0, max_value := some 3600 })]),
   ("CA",
    [("step_potentials",
      { name := "step_potentials",
        default_value := Val.list [Val.num 0, Val.num (5/10)],
        description := "Applied potentials for each step", unit := "V",
        parameter_type := "list" }),
     ("step_times",
      { name := "step_times",
        default_value := Val.list [Val.int 5, Val.int 60],
        description := "Duration of each potential step", unit := "s",
        parameter_type := "list" }),
     ("total_duration",
      { name := "total_duration", default_value := Val.int 65,
        description := "Total experiment duration", unit := "s",
        min_value := some 1, max_value := some 86400 })])]

/-- The static technique description table
(`ElectrochemicalTechniques.TECHNIQUE_DESCRIPTIONS`). -/
def TECHNIQUE_DESCRIPTIONS : List (String × String) :=
  [("CV", "Cyclic Voltammetry - Potential swept linearly between limits"),
   ("DPV", "Differential Pulse Voltammetry - Series of potential pulses"),
   ("SWV", "Square Wave Voltammetry - Square wave potential modulation"),
   ("EIS", "Electrochemical Impedance Spectroscopy - AC frequency response"),
   ("CA", "Chronoamperometry - Current response to potential steps")]

/-- `ElectrochemicalTechniques.get_technique_list`. -/
def getTechniqueList : List String := TECHNIQUE_PARAMETERS.map Prod.fst

/-- `ElectrochemicalTechniques.get_technique_parameters`:
`TECHNIQUE_PARAMETERS.get(technique, {})`. -/
def getTechniqueParameters (technique : String) : List (String × TechniqueParameter) :=
  (plookup TECHNIQUE_PARAMETERS technique).getD []

/-- `ElectrochemicalTechniques.get_technique_description`:
`TECHNIQUE_DESCRIPTIONS.get(technique, "Unknown technique")`. -/
def getTechniqueDescription (technique : String) : String :=
  (plookup TECHNIQUE_DESCRIPTIONS technique).getD "Unknown technique"

theorem plookup_eq_none {α : Type} (l : List (String × α)) (key : String)
    (h : ∀ p ∈ l, p.1 ≠ key) : plookup l key = Option.none := by
  induction l with
  | nil => rfl
  | cons p es ih =>
      obtain ⟨k, v⟩ := p
      simp only [plookup]
      rw [if_neg (h (k, v) (List.mem_cons_self _ _))]
      exact ih (fun q hq => h q (List.mem_cons_of_mem _ hq))

/-- C7: registry lookups are total with sentinel defaults: every technique id
in the registry has a non-empty parameter mapping and a non-empty
description; every id outside the registry gets the empty mapping and the
"Unknown technique" string (no exception is possible: both operations are
total functions). -/
theorem technique_registry_total_with_sentinels :
    (∀ t ∈ getTechniqueList,
        getTechniqueParameters t ≠ [] ∧ getTechniqueDescription t ≠ "") ∧
    (∀ t, t ∉ getTechniqueList →
        getTechniqueParameters t = [] ∧
        getTechniqueDescription t = "Unknown technique") := by
  constructor
  · intro t ht
    simp only [getTechniqueList, TECHNIQUE_PARAMETERS, List.map, List.mem_cons,
      List.not_mem_nil, or_false] at ht
    rcases ht with rfl | rfl | rfl | rfl | rfl <;>
      exact ⟨by simp [getTechniqueParameters, plookup, TECHNIQUE_PARAMETERS],
             by simp [getTechniqueDescription, plookup, TECHNIQUE_DESCRIPTIONS]⟩
  · intro t ht
    have hp : plookup TECHNIQUE_PARAMETERS t = Option.none := by
      apply plookup_eq_none
      intro p hp hkey
      apply ht
      simp only [getTechniqueList]
      exact hkey ▸ List.mem_map_of_mem Prod.fst hp
    have hd : plookup TECHNIQUE_DESCRIPTIONS t = Option.none := by
      apply plookup_eq_none
      intro p hp hkey
      apply ht
      revert hp
      subst hkey
      simp [TECHNIQUE_DESCRIPTIONS, getTechniqueList, TECHNIQUE_PARAMETERS]
      rintro (⟨rfl, -⟩ | ⟨rfl, -⟩ | ⟨rfl, -⟩ | ⟨rfl, -⟩ | ⟨rfl, -⟩) <;> simp
    exact ⟨by simp [getTechniqueParameters, hp],
           by simp [getTechniqueDescription, hd]⟩

/-- C7 witness: the general registry theorem applied at the concrete ids
"CV" (in the registry) and "XRD" (not in the registry). -/
theorem technique_registry_total_with_sentinels_witness :
    (getTechniqueParameters "CV" ≠ [] ∧ getTechniqueDescription "CV" ≠ "") ∧
    (getTechniqueParameters "XRD" = [] ∧
      getTechniqueDescription "XRD" = "Unknown technique") :=
  ⟨technique_registry_total_with_sentinels.1 "CV" (by decide),
   technique_registry_total_with_sentinels.2 "XRD" (by decide)⟩

/-- Python numeric view: `isinstance(v, (int, float))` succeeds exactly on
these (Python `bool` is a subclass of `int`); the rational is the numeric
value used in comparisons and arithmetic. -/
def toQ : Val → Option ℚ
  | Val.bool b => some (if b then 1 else 0)
  | Val.int n => some (n : ℚ)
  | Val.num q => some q
  | _ => Option.none

/-- Lexicographic comparison of character lists by code point, the Python
`str < str` order. -/
def charListLt : List Char → List Char → Bool
  | [], [] => false
  | [], _ :: _ => true
  | _ :: _, [] => false
  | a :: as, b :: bs =>
      if a.toNat < b.toNat then true
      else if a.toNat = b.toNat then charListLt as bs
      else false

/-- Python `a < b`: numeric for numbers, lexicographic for two strings,
`TypeError` for the mixed-type comparisons this code can run into
(the container comparisons Python also supports are not exercised here). -/
def pyLt (a b : Val) : Except String Bool :=
  match toQ a, toQ b with
  | some x, some y => Except.ok (decide (x < y))
  | _, _ =>
    match a, b with
    | Val.str s, Val.str t => Except.ok (charListLt s.data t.data)
    | _, _ => Except.error "TypeError"

/-- Python `a > b` (for numbers and strings, `a > b` iff `b < a`). -/
def pyGt (a b : Val) : Except String Bool := pyLt b a

/-- Python `a <= b` (for numbers and strings, `a <= b` iff not `b < a`). -/
def pyLe (a b : Val) : Except String Bool := (pyLt b a).map (fun r => !r)

/-- Python `a - b`: defined for numbers, `TypeError` otherwise (in
particular for two strings). -/
def pySub (a b : Val) : Except String Val :=
  match toQ a, toQ b with
  | some x, some y => Except.ok (Val.num (x - y))
  | _, _ => Except.error "TypeError"

/-- Python `abs(v)`: defined for numbers, `TypeError` otherwise. -/
def pyAbs (v : Val) : Except String Val :=
  match toQ v with
  | some x => Except.ok (Val.num |x|)
  | Option.none => Except.error "TypeError"

/-- Output of one validator helper: the `results` dict of `errors` and
`warnings` lists built by the `_validate_*_parameters` helpers. -/
structure VResults where
  errors : List String
  warnings : List String
deriving DecidableEq, Repr

/-- `ECDataValidator._validate_cv_parameters`. The float literals `0.1`
and `10` are modelled by the exact rationals they denote in the source
text. -/
def validateCVParameters (params : Val) : Except String VResults := do
  let scanRate ← params.attrGet "scan_rate" Val.none
  let part1 : VResults :=
    match scanRate with
    | Val.none => ⟨[], []⟩
    | v =>
      match toQ v with
      | Option.none => ⟨["CV scan rate must be positive number"], []⟩
      | some q =>
          if q ≤ 0 then ⟨["CV scan rate must be positive number"], []⟩
          else if q > 10 then
            ⟨[], ["CV scan rate seems high (>10 V/s) - please verify"]⟩
          else ⟨[], []⟩
  let startPot ← params.attrGet "start_potential" Val.none
  let endPot ← params.attrGet "end_potential" Val.none
  let part2 : List String ←
    match startPot, endPot with
    | Val.none, _ => pure []
    | _, Val.none => pure []
    | s, e => do
        let d ← pySub e s
        let a ← pyAbs d
        let narrow ← pyLt a (Val.num (1/10))
        if narrow then pure ["CV potential window seems narrow (<0.1 V)"]
        else pure []
  pure ⟨part1.errors, part1.warnings ++ part2⟩

/-- `ECDataValidator._validate_eis_parameters`. -/
def validateEISParameters (params : Val) : Except String VResults := do
  let freqRange ← params.attrGet "frequency_range" Val.none
  let w1 : List String ←
    match freqRange with
    | Val.list (a :: b :: _) => do
        let le ← pyLe a b
        if le then pure ["EIS frequency range should be [high, low]"]
        else pure []
    | _ => pure []
  let acAmp ← params.attrGet "ac_amplitude" Val.none
  let w2 : List String ←
    match acAmp with
    | Val.none => pure []
    | v => do
        let gt ← pyGt v (Val.num (1/10))
        if gt then pure ["EIS AC amplitude >0.1V may cause non-linear response"]
        else pure []
  pure ⟨[], w1 ++ w2⟩

/-- `ECDataValidator._validate_pulse_parameters` (DPV, SWV). -/
def validatePulseParameters (params technique : Val) : Except String VResults := do
  if technique.isStrEq "DPV" then do
    let pulseWidth ← params.attrGet "pulse_width" Val.none
    match pulseWidth with
    | Val.none => pure ⟨[], []⟩
    | v => do
        let short ← pyLt v (Val.num (1/100))
        if short then pure ⟨[], ["DPV pulse width <10ms may be too short"]⟩
        else pure ⟨[], []⟩
  else if technique.isStrEq "SWV" then do
    let frequency ← params.attrGet "frequency" Val.none
    match frequency with
    | Val.none => pure ⟨[], []⟩
    | v => do
        let high ← pyGt v (Val.int 1000)
        if high then pure ⟨[], ["SWV frequency >1000Hz may be too high"]⟩
        else pure ⟨[], []⟩
  else pure ⟨[], []⟩

/-- Short-circuiting Python `any(t < bound for t in xs)`. -/
def pyAnyLt : List Val → Val → Except String Bool
  | [], _ => Except.ok false
  | t :: ts, bound => do
      let b ← pyLt t bound
      if b then pure true else pyAnyLt ts bound

/-- `ECDataValidator._validate_ca_parameters`. -/
def validateCAParameters (params : Val) : Except String VResults := do
  let stepTimes ← params.attrGet "step_times" Val.none
  match stepTimes with
  | Val.list (x :: xs) => do
      let short ← pyAnyLt (x :: xs) (Val.num (1/10))
      if short then
        pure ⟨[], ["CA step times <0.1s may be too short for steady-state"]⟩
      else pure ⟨[], []⟩
  | _ => pure ⟨[], []⟩

/-- `ECDataValidator._validate_technique_parameters`: extracts
`technique.name` and `technique.parameters` and dispatches on the name;
`results.update(...)` replaces the (still empty) lists wholesale, so the
dispatched helper's result is the result. -/
def validateTechniqueParameters (m : List (String × Val)) : Except String VResults := do
  let tsec := dgetD m "technique" (Val.dict [])
  let nameV ← tsec.attrGet "name" (Val.str "")
  let paramsV ← tsec.attrGet "parameters" (Val.dict [])
  if !(truthy nameV) then pure ⟨["Technique name is required"], []⟩
  else if nameV.isStrEq "CV" then validateCVParameters paramsV
  else if nameV.isStrEq "EIS" then validateEISParameters paramsV
  else if nameV.isStrEq "DPV" || nameV.isStrEq "SWV" then
    validatePulseParameters paramsV nameV
  else if nameV.isStrEq "CA" then validateCAParameters paramsV
  else pure ⟨[], []⟩

/-- Error projection of an `Except` value (the Python exception that
propagates, if any). -/
def exceptErr {α : Type} : Except String α → Option String
  | Except.error e => some e
  | Except.ok _ => Option.none

/-- C5: evaluation at the failing input: a CV record whose
`start_potential` and `end_potential` are the strings "0" and "1" makes the
technique pass raise `TypeError` (from `end_pot - start_pot`), which
`validate_metadata` does not catch, contradicting the propagation policy. -/
theorem cv_string_potentials_raise :
    exceptErr (validateTechniqueParameters
      [("technique", Val.dict
        [("name", Val.str "CV"),
         ("parameters", Val.dict
           [("start_potential", Val.str "0"),
            ("end_potential", Val.str "1")])])]) = some "TypeError" := by
  decide

/-- C8 counterexample: the record whose `technique.name` is the empty
string — a name that is not one of CV, EIS, DPV, SWV, CA — makes the pass
emit the error "Technique name is required", so the pass is not a no-op on
every unrecognized name. -/
theorem empty_technique_name_emits_error :
    ("" : String) ∉ ["CV", "EIS", "DPV", "SWV", "CA"] ∧
    (validateTechniqueParameters
        [("technique", Val.dict [("name", Val.str "")])]).toOption =
      some ⟨["Technique name is required"], []⟩ := by
  constructor
  · decide
  · decide

/-- C8 amended: for every record whose technique section is a mapping and
whose `technique.name` is truthy (non-empty) and not one of CV, EIS, DPV,
SWV, CA, the technique-specific pass contributes no error and no warning. -/
theorem unknown_technique_name_noop (m : List (String × Val))
    (tes : List (String × Val))
    (hsec : dgetD m "technique" (Val.dict []) = Val.dict tes)
    (htr : truthy (dgetD tes "name" (Val.str "")) = true)
    (hnot : ∀ s ∈ ["CV", "EIS", "DPV", "SWV", "CA"],
      (dgetD tes "name" (Val.str "")).isStrEq s = false) :
    validateTechniqueParameters m = Except.ok ⟨[], []⟩ := by
  have hcv := hnot "CV" (by simp)
  have heis := hnot "EIS" (by simp)
  have hdpv := hnot "DPV" (by simp)
  have hswv := hnot "SWV" (by simp)
  have hca := hnot "CA" (by simp)
  simp [validateTechniqueParameters, hsec, Val.attrGet, htr, hcv, heis,
    hdpv, hswv, hca, Bind.bind, Except.bind, Pure.pure, Except.pure]

/-- C8 amended witness: the no-op theorem applied to a record with the
unrecognized non-empty technique name "LSV". -/
theorem unknown_technique_name_noop_witness :
    validateTechniqueParameters
      [("technique", Val.dict [("name", Val.str "LSV")])] = Except.ok ⟨[], []⟩ :=
  unknown_technique_name_noop _ [("name", Val.str "LSV")] rfl (by decide)
    (by decide)

/-- Python `str(v)` for the value kinds that can reach an f-string here
(only the string case is exercised by this code base; containers are
abbreviated). -/
def pyFormat : Val → String
  | Val.str s => s
  | Val.int n => toString n
  | Val.bool b => if b then "True" else "False"
  | Val.none => "None"
  | Val.num q => toString q
  | Val.list _ => "[...]"
  | Val.dict _ => "\x7b...\x7d"

/-- Result dict of `_check_fair_compliance`: warnings, recommendations and
the score. -/
structure FairRes where
  warnings : List String
  recommendations : List String
  score : ℚ
deriving Repr

/-- The eleven FAIR checks of `ECDataValidator._check_fair_compliance`,
as a function of the values the method reads from the record (in source
order): each passed check adds one point and one recommendation; each
failed check appends one warning, except the I1 `schema_version` check,
whose `if` has no `else` branch. The score is `score / max_score` with
`max_score = 4 + 2 + 2 + 3 = 11` (the `max_score > 0` guard is vacuous). -/
def fairFromVals (expId creator tname tdesc terms fmt accProt schemaVer
    metaVocab license institution pubDoi : Val) : FairRes :=
  let c1 := truthy expId
  let c2 := truthy creator
  let c3 := truthy tname && truthy tdesc
  let c4 := truthy terms
  let c5 := fmt.isStrEq "CSV" || fmt.isStrEq "JSON" || fmt.isStrEq "TSV"
  let c6 := truthy accProt
  let c7 := truthy schemaVer
  let c8 := truthy metaVocab
  let c9 := truthy license && !(license.isStrEq "")
  let c10 := truthy institution
  let c11 := truthy pubDoi
  let pts := bnat c1 + bnat c2 + bnat c3 + bnat c4 + bnat c5 + bnat c6 +
    bnat c7 + bnat c8 + bnat c9 + bnat c10 + bnat c11
  { warnings :=
      (if c1 then [] else ["❌ F1: Missing unique identifier"]) ++
      (if c2 then [] else ["⚠️ F2: Consider adding creator information"]) ++
      (if c3 then [] else ["⚠️ F3: Add more descriptive metadata"]) ++
      (if c4 then [] else
        ["💡 F4: Consider using EMMO vocabulary for better findability"]) ++
      (if c5 then [] else ["⚠️ A1: Consider using open data formats"]) ++
      (if c6 then [] else ["💡 A2: Specify how data can be accessed"]) ++
      (if c8 then [] else ["💡 I2: Specify metadata vocabulary used"]) ++
      (if c9 then [] else ["⚠️ R1: Specify data license for reusability"]) ++
      (if c10 then [] else ["💡 R2: Add institutional information"]) ++
      (if c11 then [] else ["💡 R3: Link to related publications if available"]),
    recommendations :=
      (if c1 then ["✅ F1: Unique identifier present"] else []) ++
      (if c2 then ["✅ F2: Creator information provided"] else []) ++
      (if c3 then ["✅ F3: Rich metadata with technique details"] else []) ++
      (if c4 then ["✅ F4: Uses controlled vocabulary (EMMO)"] else []) ++
      (if c5 then ["✅ A1: Data in open format"] else []) ++
      (if c6 then ["✅ A2: Access protocol specified"] else []) ++
      (if c7 then ["✅ I1: Uses standard metadata schema"] else []) ++
      (if c8 then ["✅ I2: Metadata vocabulary specified"] else []) ++
      (if c9 then
        ["✅ R1: License specified (" ++ pyFormat license ++ ")"] else []) ++
      (if c10 then ["✅ R2: Institutional provenance provided"] else []) ++
      (if c11 then ["✅ R3: Linked to publication"] else []),
    score := (pts : ℚ) / 11 }

/-- `ECDataValidator._check_fair_compliance`: reads the checked values in
source order (each `.get` on a non-dict section raises `AttributeError`)
and assembles the result. -/
def checkFairCompliance (m : List (String × Val)) : Except String FairRes := do
  let expId := dgetD m "experiment_id" Val.none
  let creator ← (dgetD m "attribution" (Val.dict [])).attrGet "creator" Val.none
  let technique := dgetD m "technique" (Val.dict [])
  let tname ← technique.attrGet "name" Val.none
  let tdesc ← technique.attrGet "description" Val.none
  let terms ← (dgetD m "emmo_compliance" (Val.dict [])).attrGet "terms_used" Val.none
  let fmt ← (dgetD m "dataset" (Val.dict [])).attrGet "format" Val.none
  let fairComp := dgetD m "fair_compliance" (Val.dict [])
  let accessible ← fairComp.attrGet "accessible" (Val.dict [])
  let accProt ← accessible.attrGet "access_protocol" Val.none
  let schemaVer := dgetD m "schema_version" Val.none
  let interop ← fairComp.attrGet "interoperable" (Val.dict [])
  let metaVocab ← interop.attrGet "metadata_vocabulary" Val.none
  let reusable ← fairComp.attrGet "reusable" (Val.dict [])
  let license ← reusable.attrGet "license" Val.none
  let institution ←
    (dgetD m "attribution" (Val.dict [])).attrGet "institution" Val.none
  let pubDoi ←
    (dgetD m "related_work" (Val.dict [])).attrGet "publication_doi" Val.none
  pure (fairFromVals expId creator tname tdesc terms fmt accProt schemaVer
    metaVocab license institution pubDoi)

/-- Python `"a.b.c".split(".")` on the character level. -/
def splitDotsChars : List Char → List Char → List String
  | [], acc => [String.mk acc.reverse]
  | c :: rest, acc =>
      if c = '.' then String.mk acc.reverse :: splitDotsChars rest []
      else splitDotsChars rest (c :: acc)

/-- Python `path.split(".")`. -/
def splitDots (path : String) : List String := splitDotsChars path.data []

/-- Walk of `_get_nested_value`: successive `value[key]` indexing;
`KeyError` (missing key) and `TypeError` (indexing a non-dict with a string
key) are caught and become `None`, here `Option.none`. -/
def walkPath : Val → List String → Option Val
  | v, [] => some v
  | Val.dict es, k :: ks =>
      match dget es k with
      | some v => walkPath v ks
      | Option.none => Option.none
  | _, _ :: _ => Option.none

/-- `ECDataValidator._get_nested_value` (dot-separated path lookup). -/
def getNested (m : List (String × Val)) (path : String) : Option Val :=
  walkPath (Val.dict m) (splitDots path)

/-- Truthiness of the `Option`-valued `_get_nested_value` result
(`None` is falsy). -/
def truthyO : Option Val → Bool
  | some v => truthy v
  | Option.none => false

/-- The five required fields of `_assess_completeness`. -/
def requiredFields : List (String × String) :=
  [("technique.name", "Technique name"),
   ("experimental_setup.working_electrode", "Working electrode"),
   ("experimental_setup.reference_electrode", "Reference electrode"),
   ("experimental_setup.electrolyte", "Electrolyte"),
   ("dataset.filename", "Dataset filename")]

/-- The six recommended fields of `_assess_completeness`. -/
def recommendedFields : List (String × String) :=
  [("attribution.creator", "Creator name"),
   ("attribution.institution", "Institution"),
   ("experimental_setup.temperature", "Temperature"),
   ("technique.parameters", "Technique parameters"),
   ("fair_compliance.reusable.license", "License"),
   ("related_work.publication_doi", "Related publication")]

/-- Rendering of the Python f-string `f"{score:.1%}"`: percentage with one
decimal digit. Python rounds the underlying binary float half-to-even;
this model rounds the exact rational to the nearest tenth of a percent,
which agrees on every value `k/11` this code produces (none is a tie). -/
def formatPct (q : ℚ) : String :=
  let tenths : ℤ := round (q * 1000)
  toString (tenths / 10) ++ "." ++ toString (tenths % 10) ++ "%"

/-- Result dict of `_assess_completeness`. -/
structure CompRes where
  warnings : List String
  score : ℚ
deriving Repr

/-- `ECDataValidator._assess_completeness`: presence (by truthiness) over
the 5 required and 6 recommended dot-paths, one warning per missing
required field, score `total_present / total_fields`, and one bucketed
summary line. This function is total: `_get_nested_value` catches its own
exceptions. -/
def assessCompleteness (m : List (String × Val)) : CompRes :=
  let missingWarnings := requiredFields.filterMap (fun f =>
    if truthyO (getNested m f.1) then Option.none
    else some ("Missing required field: " ++ f.2))
  let presentRequired := requiredFields.countP (fun f => truthyO (getNested m f.1))
  let presentRecommended :=
    recommendedFields.countP (fun f => truthyO (getNested m f.1))
  let totalFields := requiredFields.length + recommendedFields.length
  let score : ℚ := ((presentRequired + presentRecommended : Nat) : ℚ) / totalFields
  let summary :=
    if score ≥ 8/10 then
      "✅ High completeness score: " ++ formatPct score
    else if score ≥ 6/10 then
      "⚠️ Moderate completeness: " ++ formatPct score ++
        " - consider adding more details"
    else
      "❌ Low completeness: " ++ formatPct score ++
        " - important information missing"
  { warnings := missingWarnings ++ [summary], score := score }

theorem length_ite_warn (c : Bool) (w : String) :
    (if c = true then ([] : List String) else [w]).length = 1 - c.toNat := by
  cases c <;> rfl

theorem length_ite_rec (c : Bool) (r : String) :
    (if c = true then [r] else ([] : List String)).length = c.toNat := by
  cases c <;> rfl

theorem bnat_le_one (b : Bool) : bnat b ≤ 1 := by cases b <;> simp [bnat]

/-- C4 counterexample: on the empty record all 11 checks fail (zero
recommendations, hence zero points), yet only 10 warnings are emitted —
not 11 — because the failed I1 `schema_version` check emits nothing. -/
theorem fair_empty_record_emits_ten_warnings :
    ((checkFairCompliance []).toOption.map
      (fun r => (r.warnings.length, r.recommendations.length))) =
      some (10, 0) := by
  decide

/-- C4 amended: each failed FAIR check except I1 (`schema_version`) emits
exactly one warning, and each passed check emits exactly one
recommendation, so warnings + recommendations = 10 + (1 if the I1 check
passed). Equivalently, the number of failure messages equals the number of
failed checks minus one exactly when `schema_version` is falsy. -/
theorem fair_warning_count (expId creator tname tdesc terms fmt accProt
    schemaVer metaVocab license institution pubDoi : Val) :
    (fairFromVals expId creator tname tdesc terms fmt accProt schemaVer
        metaVocab license institution pubDoi).warnings.length +
      (fairFromVals expId creator tname tdesc terms fmt accProt schemaVer
        metaVocab license institution pubDoi).recommendations.length =
      10 + (truthy schemaVer).toNat := by
  simp only [fairFromVals, List.length_append, length_ite_warn, length_ite_rec]
  have h1 := Bool.toNat_le (truthy expId)
  have h2 := Bool.toNat_le (truthy creator)
  have h3 := Bool.toNat_le (truthy tname && truthy tdesc)
  have h4 := Bool.toNat_le (truthy terms)
  have h5 := Bool.toNat_le
    (fmt.isStrEq "CSV" || fmt.isStrEq "JSON" || fmt.isStrEq "TSV")
  have h6 := Bool.toNat_le (truthy accProt)
  have h7 := Bool.toNat_le (truthy schemaVer)
  have h8 := Bool.toNat_le (truthy metaVocab)
  have h9 := Bool.toNat_le (truthy license && !(license.isStrEq ""))
  have h10 := Bool.toNat_le (truthy institution)
  have h11 := Bool.toNat_le (truthy pubDoi)
  omega

/-- C6: the FAIR score (points/11 over the 4+2+2+3 single-point checks)
and the completeness score (present/11 over 5 required plus 6 recommended
fields) lie in [0, 1] for every input, and both are exactly 0 on the empty
record. -/
theorem fair_and_completeness_scores_unit_interval :
    (∀ expId creator tname tdesc terms fmt accProt schemaVer metaVocab
        license institution pubDoi : Val,
      0 ≤ (fairFromVals expId creator tname tdesc terms fmt accProt
            schemaVer metaVocab license institution pubDoi).score ∧
      (fairFromVals expId creator tname tdesc terms fmt accProt schemaVer
            metaVocab license institution pubDoi).score ≤ 1) ∧
    (∀ m : List (String × Val),
      0 ≤ (assessCompleteness m).score ∧ (assessCompleteness m).score ≤ 1) ∧
    ((checkFairCompliance []).toOption.map FairRes.score = some 0) ∧
    ((assessCompleteness []).score = 0) := by
  refine ⟨?_, ?_, ?_, ?_⟩
  · intro expId creator tname tdesc terms fmt accProt schemaVer metaVocab
      license institution pubDoi
    simp only [fairFromVals]
    constructor
    · positivity
    · rw [div_le_one (by norm_num)]
      have h1 := bnat_le_one (truthy expId)
      have h2 := bnat_le_one (truthy creator)
      have h3 := bnat_le_one (truthy tname && truthy tdesc)
      have h4 := bnat_le_one (truthy terms)
      have h5 := bnat_le_one
        (fmt.isStrEq "CSV" || fmt.isStrEq "JSON" || fmt.isStrEq "TSV")
      have h6 := bnat_le_one (truthy accProt)
      have h7 := bnat_le_one (truthy schemaVer)
      have h8 := bnat_le_one (truthy metaVocab)
      have h9 := bnat_le_one (truthy license && !(license.isStrEq ""))
      have h10 := bnat_le_one (truthy institution)
      have h11 := bnat_le_one (truthy pubDoi)
      have : bnat (truthy expId) + bnat (truthy creator) +
          bnat (truthy tname && truthy tdesc) + bnat (truthy terms) +
          bnat (fmt.isStrEq "CSV" || fmt.isStrEq "JSON" || fmt.isStrEq "TSV") +
          bnat (truthy accProt) + bnat (truthy schemaVer) +
          bnat (truthy metaVocab) +
          bnat (truthy license && !(license.isStrEq "")) +
          bnat (truthy institution) + bnat (truthy pubDoi) ≤ 11 := by omega
      exact_mod_cast this
  · intro m
    simp only [assessCompleteness]
    constructor
    · positivity
    · have hr := List.countP_le_length
        (fun f : String × String => truthyO (getNested m f.1)) (l := requiredFields)
      have hc := List.countP_le_length
        (fun f : String × String => truthyO (getNested m f.1)) (l := recommendedFields)
      have hrl : requiredFields.length = 5 := rfl
      have hcl : recommendedFields.length = 6 := rfl
      rw [div_le_one (by rw [hrl, hcl]; norm_num), hrl, hcl]
      have : requiredFields.countP (fun f => truthyO (getNested m f.1)) +
          recommendedFields.countP (fun f => truthyO (getNested m f.1)) ≤ 11 := by
        omega
      exact_mod_cast this
  · have h : checkFairCompliance [] =
        Except.ok (fairFromVals Val.none Val.none Val.none Val.none Val.none
          Val.none Val.none Val.none Val.none Val.none Val.none Val.none) := by
      rfl
    rw [h]
    simp [fairFromVals, bnat, truthy, Val.isStrEq, Except.toOption]
  · have h1 : requiredFields.countP
        (fun f => truthyO (getNested [] f.1)) = 0 := by decide
    have h2 : recommendedFields.countP
        (fun f => truthyO (getNested [] f.1)) = 0 := by decide
    simp only [assessCompleteness, h1, h2]
    norm_num

/-- C9: presence checks use truthiness, not key existence. A record whose
`technique.parameters` is a present-but-empty mapping, whose
`experimental_setup.temperature` is the present-but-zero `0`, and whose
`emmo_compliance.terms_used` is a present-but-empty list produces exactly
the same FAIR output and the same completeness output as the record with
those keys absent, whatever else the record contains; and the falsy value
lowers the completeness score and triggers the missing-field warnings
exactly as an absent key would. -/
theorem falsy_present_fields_equal_absent
    (techRest setupRest topRest : List (String × Val))
    (hpar : dget techRest "parameters" = Option.none)
    (htemp : dget setupRest "temperature" = Option.none)
    (hemmo : dget topRest "emmo_compliance" = Option.none) :
    (checkFairCompliance
        (("technique", Val.dict (("parameters", Val.dict []) :: techRest)) ::
         ("experimental_setup",
            Val.dict (("temperature", Val.int 0) :: setupRest)) ::
         ("emmo_compliance", Val.dict [("terms_used", Val.list [])]) ::
         topRest) =
      checkFairCompliance
        (("technique", Val.dict techRest) ::
         ("experimental_setup", Val.dict setupRest) :: topRest)) ∧
    (assessCompleteness
        (("technique", Val.dict (("parameters", Val.dict []) :: techRest)) ::
         ("experimental_setup",
            Val.dict (("temperature", Val.int 0) :: setupRest)) ::
         ("emmo_compliance", Val.dict [("terms_used", Val.list [])]) ::
         topRest) =
      assessCompleteness
        (("technique", Val.dict techRest) ::
         ("experimental_setup", Val.dict setupRest) :: topRest)) ∧
    ((assessCompleteness
        [("experimental_setup", Val.dict [("temperature", Val.int 0)])]).score <
      (assessCompleteness
        [("experimental_setup", Val.dict [("temperature", Val.int 25)])]).score) ∧
    ("Missing required field: Technique name" ∈
      (assessCompleteness
        [("experimental_setup", Val.dict [("temperature", Val.int 0)])]).warnings) := by
  refine ⟨?_, ?_, ?_, ?_⟩
  · simp [checkFairCompliance, dgetD, dget, hemmo, Val.attrGet, fairFromVals,
      truthy, bnat, Bind.bind, Except.bind, Pure.pure, Except.pure,
      Val.isStrEq]
  · have p1 : splitDots "technique.name" = ["technique", "name"] := by decide
    have p2 : splitDots "experimental_setup.working_electrode" =
      ["experimental_setup", "working_electrode"] := by decide
    have p3 : splitDots "experimental_setup.reference_electrode" =
      ["experimental_setup", "reference_electrode"] := by decide
    have p4 : splitDots "experimental_setup.electrolyte" =
      ["experimental_setup", "electrolyte"] := by decide
    have p5 : splitDots "dataset.filename" = ["dataset", "filename"] := by decide
    have p6 : splitDots "attribution.creator" =
      ["attribution", "creator"] := by decide
    have p7 : splitDots "attribution.institution" =
      ["attribution", "institution"] := by decide
    have p8 : splitDots "experimental_setup.temperature" =
      ["experimental_setup", "temperature"] := by decide
    have p9 : splitDots "technique.parameters" =
      ["technique", "parameters"] := by decide
    have p10 : splitDots "fair_compliance.reusable.license" =
      ["fair_compliance", "reusable", "license"] := by decide
    have p11 : splitDots "related_work.publication_doi" =
      ["related_work", "publication_doi"] := by decide
    simp [assessCompleteness, requiredFields, recommendedFields, getNested,
      p1, p2, p3, p4, p5, p6, p7, p8, p9, p10, p11, walkPath, dget, truthyO,
      truthy, hpar, htemp, List.countP_cons, List.countP_nil,
      List.filterMap_cons, List.filterMap_nil]
  · have c1 : requiredFields.countP (fun f => truthyO (getNested
        [("experimental_setup", Val.dict [("temperature", Val.int 0)])] f.1))
        = 0 := by decide
    have c2 : recommendedFields.countP (fun f => truthyO (getNested
        [("experimental_setup", Val.dict [("temperature", Val.int 0)])] f.1))
        = 0 := by decide
    have c3 : requiredFields.countP (fun f => truthyO (getNested
        [("experimental_setup", Val.dict [("temperature", Val.int 25)])] f.1))
        = 0 := by decide
    have c4 : recommendedFields.countP (fun f => truthyO (getNested
        [("experimental_setup", Val.dict [("temperature", Val.int 25)])] f.1))
        = 1 := by decide
    simp only [assessCompleteness, c1, c2, c3, c4]
    norm_num [requiredFields, recommendedFields]
  · have hm : requiredFields.filterMap (fun f => if truthyO (getNested
        [("experimental_setup", Val.dict [("temperature", Val.int 0)])] f.1)
        then Option.none else some ("Missing required field: " ++ f.2)) =
        ["Missing required field: Technique name",
         "Missing required field: Working electrode",
         "Missing required field: Reference electrode",
         "Missing required field: Electrolyte",
         "Missing required field: Dataset filename"] := by decide
    simp only [assessCompleteness, hm]
    exact List.mem_append_left _ (List.mem_cons_self _ _)

/-- C9 witness: the truthiness theorem applied at the concrete records built
from empty rests. -/
theorem falsy_present_fields_equal_absent_witness :
    (checkFairCompliance
        [("technique", Val.dict [("parameters", Val.dict [])]),
         ("experimental_setup", Val.dict [("temperature", Val.int 0)]),
         ("emmo_compliance", Val.dict [("terms_used", Val.list [])])] =
      checkFairCompliance
        [("technique", Val.dict []), ("experimental_setup", Val.dict [])]) ∧
    (assessCompleteness
        [("technique", Val.dict [("parameters", Val.dict [])]),
         ("experimental_setup", Val.dict [("temperature", Val.int 0)]),
         ("emmo_compliance", Val.dict [("terms_used", Val.list [])])] =
      assessCompleteness
        [("technique", Val.dict []), ("experimental_setup", Val.dict [])]) ∧
    ((assessCompleteness
        [("experimental_setup", Val.dict [("temperature", Val.int 0)])]).score <
      (assessCompleteness
        [("experimental_setup", Val.dict [("temperature", Val.int 25)])]).score) ∧
    ("Missing required field: Technique name" ∈
      (assessCompleteness
        [("experimental_setup", Val.dict [("temperature", Val.int 0)])]).warnings) :=
  falsy_present_fields_equal_absent [] [] [] rfl rfl rfl

/-- Numeric parse of a run of decimal digits: value, number of digits
consumed, remaining characters. -/
def parseDigitsAux : List Char → Nat → Nat → (Nat × Nat × List Char)
  | [], acc, cnt => (acc, cnt, [])
  | c :: rest, acc, cnt =>
      if c.isDigit then parseDigitsAux rest (acc * 10 + (c.toNat - 48)) (cnt + 1)
      else (acc, cnt, c :: rest)

/-- The numeric strings `pandas.to_numeric` accepts (optional sign, decimal
digits with optional fraction, optional exponent), with their exact
rational value; `Option.none` is the parse failure that `errors="coerce"`
turns into NaN. -/
def strToNum (s : String) : Option ℚ :=
  match s.data with
  | [] => Option.none
  | cs =>
    let sign : ℚ × List Char :=
      match cs with
      | '+' :: r => (1, r)
      | '-' :: r => (-1, r)
      | r => (1, r)
    let ipart := parseDigitsAux sign.2 0 0
    let fpart : Nat × Nat × List Char :=
      match ipart.2.2 with
      | '.' :: r => parseDigitsAux r 0 0
      | r => (0, 0, r)
    if ipart.2.1 + fpart.2.1 = 0 then Option.none
    else
      let mant : ℚ := (ipart.1 : ℚ) + (fpart.1 : ℚ) / ((10 : ℚ) ^ fpart.2.1)
      match fpart.2.2 with
      | [] => some (sign.1 * mant)
      | e :: r =>
        if e = 'e' ∨ e = 'E' then
          let esign : Int × List Char :=
            match r with
            | '+' :: r2 => (1, r2)
            | '-' :: r2 => (-1, r2)
            | r2 => (1, r2)
          let epart := parseDigitsAux esign.2 0 0
          if epart.2.1 = 0 ∨ epart.2.2 ≠ [] then Option.none
          else some (sign.1 * mant * (10 : ℚ) ^ (esign.1 * (epart.1 : Int)))
        else Option.none

/-- One cell under `pd.to_numeric(column, errors="coerce")`: numbers pass
through, `None` and unparseable strings become NaN (`Option.none`) without
raising, while nested containers still raise `TypeError` even under
`errors="coerce"`. -/
def coerceCell : Val → Except String (Option ℚ)
  | Val.int n => Except.ok (some (n : ℚ))
  | Val.num q => Except.ok (some q)
  | Val.bool b => Except.ok (some (if b then 1 else 0))
  | Val.none => Except.ok Option.none
  | Val.str s => Except.ok (strToNum s)
  | Val.list _ => Except.error "TypeError"
  | Val.dict _ => Except.error "TypeError"

/-- `pd.to_numeric(df[col], errors="coerce")` over a column. -/
def toNumericCoerce (vals : List Val) : Except String (List (Option ℚ)) :=
  vals.mapM coerceCell

/-- Spec-side notion used by C2: a column is numeric-coercible when every
cell converts to an actual number (no NaN, no exception). -/
def numericCoercible (vals : List Val) : Bool :=
  match toNumericCoerce vals with
  | Except.ok qs => qs.all Option.isSome
  | Except.error _ => false

/-- Token of the regular-expression fragment used by
`UIComponents._find_data_columns`: literal characters, `.*`, and the word
boundary `\b`. Every pattern in that function is a sequence of these. -/
inductive Tok where
  | lit (c : Char)
  | star
  | wb
deriving DecidableEq, Repr

/-- Word character for `\b` (Python `\w` on the ASCII column names in
play). -/
def isWordChar (c : Char) : Bool := c.isAlpha || c.isDigit || c = '_'

/-- Word-character test on an optional character (string edges count as
non-word). -/
def isWordO : Option Char → Bool
  | some c => isWordChar c
  | Option.none => false

/-- Matching of `.* rest` at a position, where `k` matches the rest of the
pattern: try the rest here, or consume one character and repeat. -/
def matchStar (k : List Char → Option Char → Bool) : List Char → Option Char → Bool
  | [], prev => k [] prev
  | x :: xs, prev => k (x :: xs) prev || matchStar k xs (some x)

/-- Regex matching at a fixed position; `prev` is the character just before
the position (for `\b`). An exhausted pattern matches (as in `re.search`,
the rest of the string is ignored). -/
def reMatch : List Tok → List Char → Option Char → Bool
  | [], _, _ => true
  | Tok.lit _ :: _, [], _ => false
  | Tok.lit c :: ts, x :: xs, _ => x == c && reMatch ts xs (some x)
  | Tok.star :: ts, s, prev => matchStar (fun s2 p2 => reMatch ts s2 p2) s prev
  | Tok.wb :: ts, s, prev => (isWordO prev != isWordO s.head?) && reMatch ts s prev

/-- Search helper: try to match at every start position. -/
def searchAux (ts : List Tok) : List Char → Option Char → Bool
  | [], prev => reMatch ts [] prev
  | x :: xs, prev => reMatch ts (x :: xs) prev || searchAux ts xs (some x)

/-- Python `re.search(pattern, s)` for the pattern fragment above. -/
def reSearch (ts : List Tok) (s : String) : Bool :=
  searchAux ts s.data Option.none

/-- Literal-character run of a pattern. -/
def lits (s : String) : List Tok := s.data.map Tok.lit

/-- The `patterns` table of `UIComponents._find_data_columns`, role by
role in source (insertion) order; each Python regex is transliterated
token by token (`.*x.*` becomes `star ++ lits "x" ++ star`, `\b` becomes
`Tok.wb`). -/
def columnPatterns : List (String × List (List Tok)) :=
  [("potential",
    [[Tok.star] ++ lits "potential" ++ [Tok.star] ++ lits "v" ++ [Tok.star],
     [Tok.star] ++ lits "v" ++ [Tok.star] ++ lits "potential" ++ [Tok.star],
     [Tok.star] ++ lits "voltage" ++ [Tok.star],
     [Tok.star] ++ lits "pot" ++ [Tok.star],
     [Tok.star, Tok.lit 'v', Tok.wb],
     [Tok.star, Tok.lit 'e', Tok.wb, Tok.star] ++ lits "v" ++ [Tok.star],
     [Tok.star] ++ lits "working" ++ [Tok.star] ++ lits "potential" ++ [Tok.star]]),
   ("current",
    [[Tok.star] ++ lits "current" ++ [Tok.star] ++ lits "a" ++ [Tok.star],
     [Tok.star] ++ lits "a" ++ [Tok.star] ++ lits "current" ++ [Tok.star],
     [Tok.star] ++ lits "ampere" ++ [Tok.star],
     [Tok.star, Tok.lit 'i', Tok.wb],
     [Tok.star] ++ lits "current" ++ [Tok.star],
     [Tok.star] ++ lits "amp" ++ [Tok.star]]),
   ("time",
    [[Tok.star] ++ lits "time" ++ [Tok.star] ++ lits "s" ++ [Tok.star],
     [Tok.star] ++ lits "s" ++ [Tok.star] ++ lits "time" ++ [Tok.star],
     [Tok.star] ++ lits "second" ++ [Tok.star],
     [Tok.star, Tok.lit 't', Tok.wb],
     [Tok.star] ++ lits "time" ++ [Tok.star],
     [Tok.star] ++ lits "sec" ++ [Tok.star]]),
   ("frequency",
    [[Tok.star] ++ lits "freq" ++ [Tok.star] ++ lits "hz" ++ [Tok.star],
     [Tok.star] ++ lits "hz" ++ [Tok.star] ++ lits "freq" ++ [Tok.star],
     [Tok.star] ++ lits "frequency" ++ [Tok.star],
     [Tok.star, Tok.lit 'f', Tok.wb, Tok.star] ++ lits "hz" ++ [Tok.star],
     [Tok.star] ++ lits "hertz" ++ [Tok.star]]),
   ("z_real",
    [[Tok.star] ++ lits "z" ++ [Tok.star] ++ lits "real" ++ [Tok.star],
     [Tok.star] ++ lits "real" ++ [Tok.star] ++ lits "z" ++ [Tok.star],
     [Tok.star] ++ lits "z" ++ [Tok.star] ++ lits "r" ++ [Tok.star],
     [Tok.star] ++ lits "zr" ++ [Tok.star],
     [Tok.star] ++ lits "z" ++ [Tok.star] ++ lits "ohm" ++ [Tok.star],
     [Tok.star] ++ lits "impedance" ++ [Tok.star] ++ lits "real" ++ [Tok.star]]),
   ("z_imag",
    [[Tok.star] ++ lits "z" ++ [Tok.star] ++ lits "imag" ++ [Tok.star],
     [Tok.star] ++ lits "imag" ++ [Tok.star] ++ lits "z" ++ [Tok.star],
     [Tok.star] ++ lits "z" ++ [Tok.star] ++ lits "i" ++ [Tok.star],
     [Tok.star] ++ lits "zi" ++ [Tok.star],
     [Tok.star] ++ lits "z" ++ [Tok.star] ++ lits "imaginary" ++ [Tok.star],
     [Tok.star] ++ lits "impedance" ++ [Tok.star] ++ lits "imag" ++ [Tok.star]]),
   ("phase",
    [[Tok.star] ++ lits "phase" ++ [Tok.star],
     [Tok.star] ++ lits "deg" ++ [Tok.star],
     [Tok.star] ++ lits "angle" ++ [Tok.star],
     [Tok.star] ++ lits "phi" ++ [Tok.star]])]

/-- Inner loops of `_find_data_columns` for one role: scan columns in table
order; on the first column whose lowered name matches some pattern of the
role, run `pd.to_numeric(df[col], errors="coerce")` — if it returns
(which it does for every column of scalars), assign the column and stop;
if it raises, the `except: continue` moves on (the remaining patterns
re-raise identically, so the column is skipped). -/
def findCol (pats : List (List Tok)) : List (String × List Val) → Option String
  | [] => Option.none
  | (name, vals) :: rest =>
      if pats.any (fun p => reSearch p (pyLower name)) then
        match toNumericCoerce vals with
        | Except.ok _ => some name
        | Except.error _ => findCol pats rest
      else findCol pats rest

/-- `UIComponents._find_data_columns`: builds the role → column-name map
in role order (the `technique` argument is unused in the source body). -/
def findDataColumns (df : List (String × List Val)) (technique : String) :
    List (String × String) :=
  (columnPatterns.map (fun rp => (rp.1, findCol rp.2 df))).filterMap
    (fun x => x.2.map (fun c => (x.1, c)))

/-- C2: evaluation at the failing input: the column "Potential (V)" whose
cells are the non-numeric strings "abc" matches the potential pattern and
is assigned anyway, because `pd.to_numeric(..., errors="coerce")` never
raises on scalar cells, so the `try/except` guard commented
"Verify it's numeric data" never skips it. -/
theorem nonnumeric_matching_column_is_assigned :
    numericCoercible [Val.str "abc"] = false ∧
    findDataColumns [("Potential (V)", [Val.str "abc"])] "CV" =
      [("potential", "Potential (V)")] := by
  constructor
  · decide
  · decide

/-- C3 counterexample: on the one-column table "Current V" (numeric cells)
the returned map assigns that same column to both the potential role
(via the `.*v\b` pattern) and the current role (via `.*current.*`): a
column already assigned to one role is reconsidered and re-assigned. -/
theorem same_column_assigned_to_two_roles :
    plookup (findDataColumns [("Current V", [Val.int 1])] "CV") "potential" =
      some "Current V" ∧
    plookup (findDataColumns [("Current V", [Val.int 1])] "CV") "current" =
      some "Current V" := by
  constructor
  · decide
  · decide

theorem keys_of_filterMap_subset {β : Type} (l : List (String × Option β))
    (k : String) :
    k ∈ (l.filterMap (fun x => x.2.map (fun c => (x.1, c)))).map Prod.fst →
      k ∈ l.map Prod.fst := by
  induction l with
  | nil => intro h; simp at h
  | cons a l ih =>
      intro h
      obtain ⟨ka, o⟩ := a
      cases o with
      | none =>
          simp only [List.filterMap_cons] at h
          exact List.mem_cons_of_mem _ (ih h)
      | some c =>
          simp only [List.filterMap_cons] at h
          simp only [Option.map] at h
          simp only [List.map_cons, List.mem_cons] at h
          rcases h with h | h
          · simp [h]
          · exact List.mem_cons_of_mem _ (ih h)

theorem filterMap_keys_nodup {β : Type} (l : List (String × Option β)) :
    (l.map Prod.fst).Nodup →
    ((l.filterMap (fun x => x.2.map (fun c => (x.1, c)))).map Prod.fst).Nodup := by
  induction l with
  | nil => intro _; simp
  | cons a l ih =>
      intro h
      obtain ⟨ka, o⟩ := a
      simp only [List.map_cons, List.nodup_cons] at h
      cases o with
      | none =>
          simp only [List.filterMap_cons]
          exact ih h.2
      | some c =>
          simp only [List.filterMap_cons, Option.map]
          simp only [List.map_cons, List.nodup_cons]
          exact ⟨fun hk => h.1 (keys_of_filterMap_subset l ka hk), ih h.2⟩

/-- C3 amended: in a single inference pass each role is assigned at most
one column — the first column in table order whose lowered name matches
one of the role's patterns — and the roles of the returned map are
pairwise distinct; but the same column may be assigned to several roles
(columns already assigned are reconsidered for later roles). -/
theorem role_map_roles_unique_first_column_wins
    (df : List (String × List Val)) (t : String) :
    ((findDataColumns df t).map Prod.fst).Nodup ∧
    ∀ r c, (r, c) ∈ findDataColumns df t →
      ∃ pats, plookup columnPatterns r = some pats ∧ findCol pats df = some c := by
  constructor
  · apply filterMap_keys_nodup
    have hcomp : (Prod.fst ∘ fun rp : String × List (List Tok) =>
        (rp.1, findCol rp.2 df)) = fun rp => rp.1 := rfl
    rw [List.map_map, hcomp]
    decide
  · intro r c hmem
    simp only [findDataColumns, List.mem_filterMap, List.mem_map] at hmem
    obtain ⟨x, ⟨rp, hrp, rfl⟩, hx⟩ := hmem
    cases hfc : findCol rp.2 df with
    | none => rw [hfc] at hx; simp at hx
    | some c2 =>
        rw [hfc] at hx
        simp only [Option.map] at hx
        have hx2 : rp.1 = r ∧ c2 = c := by
          have := Option.some.inj hx
          exact ⟨congrArg Prod.fst this, congrArg Prod.snd this⟩
        obtain ⟨h1, h2⟩ := hx2
        subst h1
        subst h2
        refine ⟨rp.2, ?_, hfc⟩
        simp only [columnPatterns, List.mem_cons, List.not_mem_nil,
          or_false] at hrp
        rcases hrp with rfl | rfl | rfl | rfl | rfl | rfl | rfl <;> rfl

/-- C3 amended witness: the amended theorem at the concrete one-column
table; the first-role assignment is exhibited for the potential role. -/
theorem role_map_roles_unique_first_column_wins_witness :
    ((findDataColumns [("Current V", [Val.int 1])] "CV").map Prod.fst).Nodup ∧
    ∃ pats, plookup columnPatterns "potential" = some pats ∧
      findCol pats [("Current V", [Val.int 1])] = some "Current V" :=
  ⟨(role_map_roles_unique_first_column_wins [("Current V", [Val.int 1])] "CV").1,
   (role_map_roles_unique_first_column_wins [("Current V", [Val.int 1])] "CV").2
     "potential" "Current V" (by decide)⟩

/-- An EMMO ontology term (`EMMOTerm` dataclass in
src/src/echem_fairifier/core/emmo_integration.py). -/
structure EMMOTerm where
  iri : String
  label : String
  definition : String
  synonyms : List String := []
  parent_classes : List String := []
deriving DecidableEq, Repr

/-- The static vocabulary store
(`EMMOElectrochemistryIntegration._load_local_terms`), in insertion
order. -/
def localTerms : List (String × EMMOTerm) :=
  [("cyclic_voltammetry",
    { iri := "https://w3id.org/emmo/domain/electrochemistry#electrochemistry_25aae0e9_a17c_4eb6_ac69_dd4264fad3d5",
      label := "CyclicVoltammetry",
      definition := "A voltammetry technique where the potential swept linearly between two limits at a constant rate.",
      synonyms := ["CV", "cyclic voltammetry"] }),
   ("differential_pulse_voltammetry",
    { iri := "https://w3id.org/emmo/domain/electrochemistry#electrochemistry_f49b84d4_e1f9_424c_bb22_8cea23c0a7d4",
      label := "DifferentialPulseVoltammetry",
      definition := "A voltammetry technique where pulses of potential are applied on top of a linear sweep.",
      synonyms := ["DPV", "differential pulse voltammetry"] }),
   ("square_wave_voltammetry",
    { iri := "https://w3id.org/emmo/domain/electrochemistry#electrochemistry_979e24bc_a0d6_4a94_ad99_46739c887dc1",
      label := "SquareWaveVoltammetry",
      definition := "A voltammetry technique where a square wave potential is superimposed on a staircase waveform.",
      synonyms := ["SWV", "square wave voltammetry"] }),
   ("electrochemical_impedance_spectroscopy",
    { iri := "https://w3id.org/emmo/domain/electrochemistry#electrochemistry_c7c8cda4_b8a4_4b1a_b0eb_58cbb1516945",
      label := "ElectrochemicalImpedanceSpectroscopy",
      definition := "A technique that applies a small amplitude sinusoidal voltage perturbation to measure impedance.",
      synonyms := ["EIS", "impedance spectroscopy"] }),
   ("chronoamperometry",
    { iri := "https://w3id.org/emmo/domain/electrochemistry#electrochemistry_f57e2b9c_bc4c_4245_b154_7ee83e688464",
      label := "Chronoamperometry",
      definition := "A technique where potential steps are applied and current response is measured vs time.",
      synonyms := ["CA", "chronoamperometry"] }),
   ("working_electrode",
    { iri := "https://w3id.org/emmo/domain/electrochemistry#electrochemistry_fb0d9eef_92af_4628_8814_e065ca255d59",
      label := "WorkingElectrode",
      definition := "The electrode at which the electrochemical reaction of interest occurs.",
      synonyms := ["WE", "working electrode"] }),
   ("reference_electrode",
    { iri := "https://w3id.org/emmo/domain/electrochemistry#electrochemistry_8e3bd7c7_681b_4f50_8ac5_f3dad6312ff4",
      label := "ReferenceElectrode",
      definition := "An electrode with a stable and well-known electrode potential.",
      synonyms := ["RE", "reference electrode"] }),
   ("counter_electrode",
    { iri := "https://w3id.org/emmo/domain/electrochemistry#electrochemistry_4bd89acc_d5ee_4dae_8bb0_bf9e5de43fbd",
      label := "CounterElectrode",
      definition := "An electrode used to complete the electrical circuit in an electrochemical cell.",
      synonyms := ["CE", "auxiliary electrode", "counter electrode"] }),
   ("glassy_carbon",
    { iri := "https://w3id.org/emmo/domain/electrochemistry#electrochemistry_3f70e5de_fa27_46a4_b201_92d0e6b5ab7a",
      label := "GlassyCarbon",
      definition := "A non-graphitising carbon with a glass-like structure.",
      synonyms := ["GC", "vitreous carbon"] }),
   ("platinum",
    { iri := "https://w3id.org/emmo/domain/electrochemistry#electrochemistry_1b827d8b_47e4_4f5a_a49e_4ad3fb28d559",
      label := "Platinum",
      definition := "A precious metal electrode material with high chemical stability.",
      synonyms := ["Pt", "platinum"] }),
   ("potassium_nitrate",
    { iri := "https://w3id.org/emmo/domain/electrochemistry#electrochemistry_5e8b6d8c_3d60_4186_8b47_0c80b154b0a9",
      label := "PotassiumNitrate",
      definition := "An ionic compound with formula KNO3, commonly used as supporting electrolyte.",
      synonyms := ["KNO3", "potassium nitrate"] })]

/-- The fixed abbreviation table inside `validate_technique`. -/
def techniqueMappings : List (String × String) :=
  [("cv", "cyclic_voltammetry"),
   ("dpv", "differential_pulse_voltammetry"),
   ("swv", "square_wave_voltammetry"),
   ("eis", "electrochemical_impedance_spectroscopy"),
   ("ca", "chronoamperometry")]

/-- `EMMOElectrochemistryIntegration.validate_technique`: normalized direct
lookup, then case-insensitive synonym lookup, then the abbreviation table
(whose targets are all present in `localTerms`, so the final indexing
cannot fail). -/
def validateTechnique (technique : String) : Option EMMOTerm :=
  let tl := pyReplaceChar (pyLower technique) ' ' '_'
  match plookup localTerms tl with
  | some t => some t
  | Option.none =>
    match localTerms.find? (fun kt =>
      (kt.2.synonyms.map pyUpper).contains (pyUpper technique)) with
    | some kt => some kt.2
    | Option.none =>
      match plookup techniqueMappings (pyLower technique) with
      | some key => plookup localTerms key
      | Option.none => Option.none

/-- The `category_filters` table in `get_controlled_vocabulary`. -/
def categoryFilters : List (String × List String) :=
  [("techniques", ["voltammetry", "spectroscopy", "chronoamperometry"]),
   ("electrodes", ["electrode"]),
   ("materials", ["carbon", "platinum", "gold", "silver"]),
   ("electrolytes", ["nitrate", "chloride", "sulfate"])]

/-- `EMMOElectrochemistryIntegration.get_controlled_vocabulary`: unknown
categories return the empty mapping; known ones keep the terms whose
lowered label or definition contains one of the category's keywords. -/
def getControlledVocabulary (category : String) : List (String × EMMOTerm) :=
  match plookup categoryFilters category with
  | Option.none => []
  | some keywords =>
      localTerms.filter (fun kt => keywords.any (fun kw =>
        pyInStr kw (pyLower kt.2.label) || pyInStr kw (pyLower kt.2.definition)))

/-- `EMMOElectrochemistryIntegration.suggest_terms`: `if category:` is a
truthiness test, so `None` and the empty string fall back to the whole
store; the loop keeps a term when the lowered input is a substring of its
lowered label, of some lowered synonym, or of its lowered definition, and
the first five hits are returned. -/
def suggestTerms (userInput : String) (category : Option String) : List EMMOTerm :=
  let searchTerms : List (String × EMMOTerm) :=
    match category with
    | some c => if !c.isEmpty then getControlledVocabulary c else localTerms
    | Option.none => localTerms
  let ul := pyLower userInput
  ((searchTerms.filter (fun kt =>
      pyInStr ul (pyLower kt.2.label) ||
      kt.2.synonyms.any (fun syn => pyInStr ul (pyLower syn)) ||
      pyInStr ul (pyLower kt.2.definition))).map (fun kt => kt.2)).take 5

/-- C10 counterexample: the empty string is a category outside
{techniques, electrodes, materials, electrolytes}, yet `suggest_terms`
called with it does not return the empty list: `if category:` is falsy on
"", so the search falls back to the whole vocabulary store and the input
"cv" matches the cyclic-voltammetry term. -/
theorem empty_category_falls_back_to_whole_store :
    ("" : String) ∉ ["techniques", "electrodes", "materials", "electrolytes"] ∧
    (suggestTerms "cv" (some "")).map (fun t => t.label) = ["CyclicVoltammetry"] := by
  constructor
  · decide
  · decide

/-- C10 amended: for every input text and every truthy (non-empty)
category outside {techniques, electrodes, materials, electrolytes},
`suggest_terms` returns the empty list (the unknown category filters the
search space to nothing); a falsy category (None or "") instead falls back
to the whole store. -/
theorem unknown_category_suggests_nothing (input cat : String)
    (hempty : cat.isEmpty = false)
    (hnot : cat ∉ ["techniques", "electrodes", "materials", "electrolytes"]) :
    suggestTerms input (some cat) = [] := by
  have hlook : plookup categoryFilters cat = Option.none := by
    apply plookup_eq_none
    intro p hp
    simp only [categoryFilters, List.mem_cons, List.not_mem_nil, or_false] at hp
    rcases hp with rfl | rfl | rfl | rfl <;>
      (intro hkey; apply hnot; simp [hkey.symm])
  simp [suggestTerms, hempty, getControlledVocabulary, hlook]

/-- C10 amended witness: the amended theorem at the concrete input
"carbon" with the unknown category "solvents". -/
theorem unknown_category_suggests_nothing_witness :
    suggestTerms "carbon" (some "solvents") = [] :=
  unknown_category_suggests_nothing "carbon" "solvents" (by decide) (by decide)

/-- A value in the mutable object graph: either an immutable payload or a
reference to a heap-allocated dict. Nested dicts of a metadata record are
references, which is what makes Python's shallow `dict.copy()`
observable. -/
inductive HVal where
  | v (x : Val)
  | ref (a : Nat)
deriving Repr

/-- A heap-allocated Python dict. -/
abbrev HDict : Type := List (String × HVal)

/-- The heap: dicts addressed by allocation index. -/
abbrev Heap : Type := List (List (String × HVal))

/-- Dereference an address (addresses produced by a run are always
valid). -/
def heapDict (h : Heap) (a : Nat) : List (String × HVal) := h.getD a []

/-- First-match lookup in a heap dict. -/
def hdget : List (String × HVal) → String → Option HVal
  | [], _ => Option.none
  | (k, v) :: es, key => if k = key then some v else hdget es key

/-- Python `d[key] = v`: replace in place if the key exists, else append
(insertion order). -/
def hsetEntry : List (String × HVal) → String → HVal → List (String × HVal)
  | [], key, v => [(key, v)]
  | (k, w) :: es, key, v =>
      if k = key then (k, v) :: es else (k, w) :: hsetEntry es key v

/-- In-place update of one key of the dict at address `a`. -/
def heapSetKey (h : Heap) (a : Nat) (key : String) (v : HVal) : Heap :=
  h.set a (hsetEntry (heapDict h a) key v)

/-- Truthiness of a heap value (a dict reference is truthy iff the dict is
non-empty). -/
def hvTruthy (h : Heap) : HVal → Bool
  | HVal.v x => truthy x
  | HVal.ref a => !(heapDict h a).isEmpty

/-- Python `v.get(key, default)` through the heap: `AttributeError` on a
non-dict receiver. -/
def hGet (h : Heap) : HVal → String → HVal → Except String HVal
  | HVal.ref a, key, dflt => Except.ok ((hdget (heapDict h a) key).getD dflt)
  | HVal.v (Val.dict es), key, dflt =>
      Except.ok (((dget es key).map HVal.v).getD dflt)
  | _, _, _ => Except.error "AttributeError"

/-- Python `d[key]` on the dict at address `a`: `KeyError` when absent. -/
def hGetItem (h : Heap) (a : Nat) (key : String) : Except String HVal :=
  match hdget (heapDict h a) key with
  | some v => Except.ok v
  | Option.none => Except.error "KeyError"

/-- `EMMOElectrochemistryIntegration.enrich_metadata_with_emmo` on the
object graph: `enriched = metadata.copy()` allocates a new top-level dict
sharing every nested reference; the fresh `emmo_compliance` dict is
allocated and attached to the copy; when the technique name resolves to an
EMMO term, `enriched["technique"]["emmo_iri"] = ...` (and label,
definition) write through the shared reference; the freshly created
`terms_used` list and `vocabulary_mapping` dict are only reachable from
the new `emmo_compliance` dict, so their `append`/assignment are modelled
as updates of that dict's entries. Returns the final heap and the address
of the enriched record. -/
def enrichMetadataWithEmmo (heap0 : Heap) (mAddr : Nat) :
    Except String (Heap × Nat) := do
  let mEntries := heapDict heap0 mAddr
  let eAddr := heap0.length
  let heap1 := heap0 ++ [mEntries]
  let emmoAddr := heap1.length
  let heap2 := heap1 ++
    [[("ontology_version",
        HVal.v (Val.str "https://w3id.org/emmo/domain/electrochemistry")),
      ("terms_used", HVal.v (Val.list [])),
      ("vocabulary_mapping", HVal.v (Val.dict []))]]
  let heap3 := heapSetKey heap2 eAddr "emmo_compliance" (HVal.ref emmoAddr)
  let tsec := (hdget (heapDict heap3 mAddr) "technique").getD
    (HVal.v (Val.dict []))
  let tnameHV ← hGet heap3 tsec "name" (HVal.v (Val.str ""))
  let heap4 ←
    if hvTruthy heap3 tnameHV then
      match tnameHV with
      | HVal.v (Val.str tname) =>
        match validateTechnique tname with
        | some term => do
            let techHV ← hGetItem heap3 eAddr "technique"
            match techHV with
            | HVal.ref ta =>
                let h5 := heapSetKey heap3 ta "emmo_iri"
                  (HVal.v (Val.str term.iri))
                let h6 := heapSetKey h5 ta "emmo_label"
                  (HVal.v (Val.str term.label))
                let h7 := heapSetKey h6 ta "emmo_definition"
                  (HVal.v (Val.str term.definition))
                match (hdget (heapDict h7 emmoAddr) "terms_used").getD
                    (HVal.v (Val.list [])) with
                | HVal.v (Val.list l) =>
                    pure (heapSetKey h7 emmoAddr "terms_used"
                      (HVal.v (Val.list (l ++
                        [Val.dict [("iri", Val.str term.iri),
                                   ("label", Val.str term.label),
                                   ("used_for", Val.str "technique")]]))))
                | _ => Except.error "AttributeError"
            | HVal.v _ => Except.error "TypeError"
        | Option.none => pure heap3
      | _ => Except.error "AttributeError"
    else pure heap3
  let expHV := (hdget (heapDict heap4 mAddr) "experimental_setup").getD
    (HVal.v (Val.dict []))
  let expEntries : List (String × HVal) ←
    match expHV with
    | HVal.ref a => pure (heapDict heap4 a)
    | HVal.v (Val.dict es) => pure (es.map (fun p => (p.1, HVal.v p.2)))
    | _ => Except.error "AttributeError"
  let vocabSuggestions := expEntries.foldl (fun acc p =>
    match p.2 with
    | HVal.v (Val.str s) =>
        if !s.isEmpty then
          match suggestTerms s Option.none with
          | [] => acc
          | t :: _ => acc ++
              [(p.1, Val.dict [("input_value", Val.str s),
                               ("emmo_suggestion", Val.str t.label),
                               ("emmo_iri", Val.str t.iri)])]
        else acc
    | _ => acc) []
  let heapF :=
    if !vocabSuggestions.isEmpty then
      heapSetKey heap4 emmoAddr "vocabulary_mapping"
        (HVal.v (Val.dict vocabSuggestions))
    else heap4
  pure (heapF, eAddr)

/-- String payload of an optional heap value. -/
def hvStr : Option HVal → Option String
  | some (HVal.v (Val.str s)) => some s
  | _ => Option.none

/-- Reference payload of an optional heap value. -/
def hvRefAddr : Option HVal → Option Nat
  | some (HVal.ref a) => some a
  | _ => Option.none

/-- C1: evaluation at the failing input {"technique": {"name": "CV"}}
(record at address 0, its technique dict at address 1). After enrichment
the caller's record still references dict 1, but that dict — reachable
from the pre-enrichment reference — now carries emmo_iri, emmo_label and
emmo_definition: the shallow `metadata.copy()` shares the nested technique
dict and the writes mutate the input record. -/
theorem enrich_mutates_input_technique_dict :
    ((enrichMetadataWithEmmo
        [[("technique", HVal.ref 1)], [("name", HVal.v (Val.str "CV"))]]
        0).toOption.map (fun r =>
      (hvRefAddr (hdget (heapDict r.1 0) "technique"),
       (heapDict r.1 1).map Prod.fst,
       hvStr (hdget (heapDict r.1 1) "emmo_iri"),
       r.2))) =
    some (some 1,
      ["name", "emmo_iri", "emmo_label", "emmo_definition"],
      some "https://w3id.org/emmo/domain/electrochemistry#electrochemistry_25aae0e9_a17c_4eb6_ac69_dd4264fad3d5",
      2) := by
  decide
